import Mathlib

/-!
Shallow embedding of the `4-14-25` repository (a Reddit project-finder
scaffold) and verification of its specification claims.

Source files embedded:
  * `src/backend/config.py` — environment-variable driven configuration
    module (`loadConfig`, the constant definitions below).
  * `src/backend/services/reddit_service.py` — Reddit client
    initialization (`init_reddit_client`, embedding the source function
    named initialize_reddit_client), the module-load wrapper that builds
    the global `reddit_client`, and the three stub service functions.

Python conventions used by the embedding:
  * the process environment (after `load_dotenv`) is a map
    `String → Option String`; `os.getenv(v)` is application of that map;
  * a Python exception is a value of `PyErr`; a Python call that can
    raise returns `Except PyErr α`;
  * Python truthiness of an `Optional[str]` is `credPresent`
    (`None` and the empty string are falsy);
  * Python `int(s)` on a string is `pyIntOfString` (strip whitespace,
    optional sign, digits with single interior underscores).
-/

namespace VibeFinder

/-- A Python process environment after `.env` loading: each variable is
either unset (`none`) or set to a string. -/
def Env : Type := String → Option String

/-- A Python exception value.  Only `ValueError` is ever raised by the
embedded code (`config.py` line 40 via `int`, `reddit_service.py` line 75). -/
inductive PyErr where
  | valueError (msg : String) : PyErr
deriving DecidableEq, Repr

/-- A Python value as it appears in this code base: `None`, a `bool`, or
a `str`.  (`config.py` line 39 mixes a bool default with string
environment values; the stub services return `None`.) -/
inductive PyValue where
  | vNone : PyValue
  | vBool (b : Bool) : PyValue
  | vStr (s : String) : PyValue
deriving DecidableEq, Repr

instance {ε α : Type} [DecidableEq ε] [DecidableEq α] : DecidableEq (Except ε α) :=
  fun x y =>
    match x, y with
    | .ok a, .ok b =>
      if h : a = b then .isTrue (congrArg Except.ok h)
      else .isFalse (fun he => h (Except.ok.inj he))
    | .ok _, .error _ => .isFalse (fun he => Except.noConfusion he)
    | .error _, .ok _ => .isFalse (fun he => Except.noConfusion he)
    | .error e1, .error e2 =>
      if h : e1 = e2 then .isTrue (congrArg Except.error h)
      else .isFalse (fun he => h (Except.error.inj he))

/-- Python truthiness for `PyValue`. -/
def PyValue.truthy : PyValue → Bool
  | .vNone => false
  | .vBool b => b
  | .vStr s => !s.isEmpty

/-- Python truthiness of an `Optional[str]` credential: `None` and the
empty string are falsy, every other string is truthy. -/
def credPresent : Option String → Bool
  | none => false
  | some s => !s.isEmpty

/-- Digit-and-underscore tail of Python `int(s)` parsing: consumes a
string of decimal digits in which a single underscore may stand between
two digits (CPython literal rule), accumulating the value. -/
def pyDigitsCore : List Char → Nat → Option Nat
  | [], acc => some acc
  | c :: rest, acc =>
    if c.isDigit then
      pyDigitsCore rest (acc * 10 + (c.toNat - 48))
    else if c = '_' then
      match rest with
      | [] => none
      | d :: _ => if d.isDigit then pyDigitsCore rest acc else none
    else none

/-- The character list of a string with surrounding whitespace
stripped, as Python `int` does before parsing. -/
def pyStrip (s : String) : List Char :=
  ((s.toList.dropWhile Char.isWhitespace).reverse.dropWhile Char.isWhitespace).reverse

/-- Python `int(s)` for a string argument: strip surrounding whitespace,
accept an optional single sign, then a nonempty run of digits with
single interior underscores; anything else raises `ValueError`
(modelled as `none`). -/
def pyIntOfString (s : String) : Option Int :=
  let cs := pyStrip s
  let signed : Int × List Char :=
    match cs with
    | '+' :: r => (1, r)
    | '-' :: r => (-1, r)
    | r => (1, r)
  match signed.2 with
  | [] => none
  | c :: _ =>
    if c.isDigit then
      (pyDigitsCore signed.2 0).map (fun n => signed.1 * (n : Int))
    else none

/-! ## `src/backend/config.py` -/

/-- The five target subreddits, `config.py` lines 18–24. -/
def SUBREDDITS : List String :=
  ["SideProject", "learnprogramming", "vibecoding", "ChatGPTCoding", "webdev"]

/-- `config.py` line 30. -/
def PINECONE_INDEX_NAME : String := "vibe-coding-projects"

/-- `config.py` line 31. -/
def PINECONE_DIMENSION : Int := 384

/-- `config.py` line 36. -/
def OPENAI_MODEL : String := "o4-mini"

/-- `config.py` line 43. -/
def REFRESH_INTERVAL_HOURS : Int := 48

/-- `config.py` line 44. -/
def MAX_POSTS_PER_SUBREDDIT : Int := 50

/-- `config.py` line 48. -/
def BASE_SIMILARITY_THRESHOLD : ℚ := 0.75

/-- `config.py` line 51. -/
def MIN_SIMILARITY_THRESHOLD : ℚ := 0.65

/-- `config.py` line 52. -/
def MAX_SIMILARITY_THRESHOLD : ℚ := 0.85

/-- `config.py` line 55. -/
def QUERY_LENGTH_THRESHOLD : Int := 50

/-- `config.py` line 56. -/
def SPECIFICITY_BOOST : ℚ := 0.05

/-- `config.py` line 59. -/
def MAX_INTEREST_CATEGORIES : Int := 5

/-- `config.py` line 60. -/
def INTEREST_DIVERSITY_BOOST : ℚ := 0.03

/-- `config.py` line 63. -/
def DEFAULT_MAX_RECOMMENDATIONS : Int := 10

/-- `config.py` line 64. -/
def MIN_RECOMMENDATIONS : Int := 5

/-- `config.py` line 65. -/
def MAX_RECOMMENDATIONS : Int := 20

/-- `config.py` line 68. -/
def RESULT_MODE_FIXED : String := "fixed"

/-- `config.py` line 69. -/
def RESULT_MODE_THRESHOLD : String := "threshold"

/-- `config.py` line 70. -/
def DEFAULT_RESULT_MODE : String := RESULT_MODE_FIXED

/-- `config.py` line 73. -/
def REDDIT_RATE_LIMIT : Int := 60

/-- `config.py` line 74. -/
def OPENAI_RATE_LIMIT : Int := 20

/-- The module-level bindings produced by a successful import of
`config.py`. -/
structure Config where
  REDDIT_CLIENT_ID : Option String
  REDDIT_CLIENT_SECRET : Option String
  REDDIT_USER_AGENT : Option String
  SUBREDDITS : List String
  PINECONE_API_KEY : Option String
  PINECONE_ENVIRONMENT : Option String
  PINECONE_INDEX_NAME : String
  PINECONE_DIMENSION : Int
  OPENAI_API_KEY : Option String
  OPENAI_MODEL : String
  DEBUG : PyValue
  PORT : Int
  REFRESH_INTERVAL_HOURS : Int
  MAX_POSTS_PER_SUBREDDIT : Int
  BASE_SIMILARITY_THRESHOLD : ℚ
  MIN_SIMILARITY_THRESHOLD : ℚ
  MAX_SIMILARITY_THRESHOLD : ℚ
  QUERY_LENGTH_THRESHOLD : Int
  SPECIFICITY_BOOST : ℚ
  MAX_INTEREST_CATEGORIES : Int
  INTEREST_DIVERSITY_BOOST : ℚ
  DEFAULT_MAX_RECOMMENDATIONS : Int
  MIN_RECOMMENDATIONS : Int
  MAX_RECOMMENDATIONS : Int
  RESULT_MODE_FIXED : String
  RESULT_MODE_THRESHOLD : String
  DEFAULT_RESULT_MODE : String
  REDDIT_RATE_LIMIT : Int
  OPENAI_RATE_LIMIT : Int
deriving DecidableEq, Repr

/-- `config.py` line 39: `DEBUG = os.getenv('FLASK_DEBUG', True)` — the
boolean `True` when the variable is unset, otherwise the raw string. -/
def DEBUG_of (v : Option String) : PyValue :=
  match v with
  | none => .vBool true
  | some s => .vStr s

/-- `config.py` line 40: `PORT = int(os.getenv('PORT', 5000))` — the
default `5000` passes through `int` unchanged; a set value is a string
fed to `int`, which raises `ValueError` on a non-integer literal. -/
def PORT_of (v : Option String) : Except PyErr Int :=
  match v with
  | none => .ok 5000
  | some s =>
    match pyIntOfString s with
    | some n => .ok n
    | none => .error (.valueError ("invalid literal for int() with base 10: " ++ s))

/-- Importing `config.py` under environment `env`: every `os.getenv`
call reads `env`; the only statement that can raise is the `int`
conversion on line 40. -/
def loadConfig (env : Env) : Except PyErr Config :=
  match PORT_of (env "PORT") with
  | .error e => .error e
  | .ok portVal =>
    .ok {
      REDDIT_CLIENT_ID := env "REDDIT_CLIENT_ID"
      REDDIT_CLIENT_SECRET := env "REDDIT_CLIENT_SECRET"
      REDDIT_USER_AGENT := env "REDDIT_USER_AGENT"
      SUBREDDITS := SUBREDDITS
      PINECONE_API_KEY := env "PINECONE_API_KEY"
      PINECONE_ENVIRONMENT := env "PINECONE_ENVIRONMENT"
      PINECONE_INDEX_NAME := PINECONE_INDEX_NAME
      PINECONE_DIMENSION := PINECONE_DIMENSION
      OPENAI_API_KEY := env "OPENAI_API_KEY"
      OPENAI_MODEL := OPENAI_MODEL
      DEBUG := DEBUG_of (env "FLASK_DEBUG")
      PORT := portVal
      REFRESH_INTERVAL_HOURS := REFRESH_INTERVAL_HOURS
      MAX_POSTS_PER_SUBREDDIT := MAX_POSTS_PER_SUBREDDIT
      BASE_SIMILARITY_THRESHOLD := BASE_SIMILARITY_THRESHOLD
      MIN_SIMILARITY_THRESHOLD := MIN_SIMILARITY_THRESHOLD
      MAX_SIMILARITY_THRESHOLD := MAX_SIMILARITY_THRESHOLD
      QUERY_LENGTH_THRESHOLD := QUERY_LENGTH_THRESHOLD
      SPECIFICITY_BOOST := SPECIFICITY_BOOST
      MAX_INTEREST_CATEGORIES := MAX_INTEREST_CATEGORIES
      INTEREST_DIVERSITY_BOOST := INTEREST_DIVERSITY_BOOST
      DEFAULT_MAX_RECOMMENDATIONS := DEFAULT_MAX_RECOMMENDATIONS
      MIN_RECOMMENDATIONS := MIN_RECOMMENDATIONS
      MAX_RECOMMENDATIONS := MAX_RECOMMENDATIONS
      RESULT_MODE_FIXED := RESULT_MODE_FIXED
      RESULT_MODE_THRESHOLD := RESULT_MODE_THRESHOLD
      DEFAULT_RESULT_MODE := DEFAULT_RESULT_MODE
      REDDIT_RATE_LIMIT := REDDIT_RATE_LIMIT
      OPENAI_RATE_LIMIT := OPENAI_RATE_LIMIT
    }

/-- The eight environment variables read by `config.py` (in source
order, lines 12–14, 28–29, 35, 39–40). -/
def configEnvVars : List String :=
  ["REDDIT_CLIENT_ID", "REDDIT_CLIENT_SECRET", "REDDIT_USER_AGENT",
   "PINECONE_API_KEY", "PINECONE_ENVIRONMENT", "OPENAI_API_KEY",
   "FLASK_DEBUG", "PORT"]

/-- The empty environment: every variable unset. -/
def envEmpty : Env := fun _ => none

/-- The environment with exactly one variable set. -/
def envSet (name val : String) : Env :=
  fun k => if k = name then some val else none

/-- The environment-dependent fields of a loaded configuration (every
field of `Config` whose value is not a fixed constant). -/
structure ConfigView where
  rcid : Option String
  rsecret : Option String
  rua : Option String
  pkey : Option String
  penv : Option String
  okey : Option String
  dbg : PyValue
  port : Int
deriving DecidableEq, Repr

/-- The environment-dependent part of a configuration load, used to
compare two loads without touching the constant fields. -/
def credsView (r : Except PyErr Config) : Option ConfigView :=
  match r with
  | .error _ => none
  | .ok c =>
    some { rcid := c.REDDIT_CLIENT_ID, rsecret := c.REDDIT_CLIENT_SECRET,
           rua := c.REDDIT_USER_AGENT, pkey := c.PINECONE_API_KEY,
           penv := c.PINECONE_ENVIRONMENT, okey := c.OPENAI_API_KEY,
           dbg := c.DEBUG, port := c.PORT }

/-! ## `src/backend/services/reddit_service.py` -/

/-- The raw Reddit post dictionary shape documented in the
`scrape_subreddits` docstring (`reddit_service.py` lines 115–125). -/
structure RawPost where
  id : String
  title : String
  selftext : String
  url : String
  author : String
  created_utc : ℚ
  subreddit : String
  score : Int
  num_comments : Int
deriving DecidableEq, Repr

/-- A `praw.Reddit` handle as constructed by this code base: the three
keyword arguments passed at `reddit_service.py` lines 79–83, the
username and password that are never passed, and the resulting
read-only flag. -/
structure RedditClient where
  client_id : Option String
  client_secret : Option String
  user_agent : Option String
  username : Option String
  password : Option String
  read_only : Bool
deriving DecidableEq, Repr

/-- The `praw.Reddit(client_id=…, client_secret=…, user_agent=…)` call
at `reddit_service.py` lines 79–83: no username or password is
supplied, so praw yields a read-only handle. -/
def praw_Reddit (cid secret ua : Option String) : RedditClient :=
  { client_id := cid
    client_secret := secret
    user_agent := ua
    username := none
    password := none
    read_only := true }

/-- The numeric tuning constants imported by `reddit_service.py`
lines 33–41 together with the other declared tuning values of
`config.py` lines 43–74, kept as parameters so that sensitivity of the
service functions to them can be stated. -/
structure TuningConsts where
  REDDIT_RATE_LIMIT : Int
  MAX_POSTS_PER_SUBREDDIT : Int
  REFRESH_INTERVAL_HOURS : Int
  BASE_SIMILARITY_THRESHOLD : ℚ
  MIN_SIMILARITY_THRESHOLD : ℚ
  MAX_SIMILARITY_THRESHOLD : ℚ
  DEFAULT_MAX_RECOMMENDATIONS : Int
  MIN_RECOMMENDATIONS : Int
  MAX_RECOMMENDATIONS : Int
deriving DecidableEq, Repr

/-- The names appended to `missing_creds` at `reddit_service.py`
lines 65–71: one entry per falsy credential, in source order. -/
def missing_creds (cid secret ua : Option String) : List String :=
  (if credPresent cid then [] else ["REDDIT_CLIENT_ID"]) ++
  (if credPresent secret then [] else ["REDDIT_CLIENT_SECRET"]) ++
  (if credPresent ua then [] else ["REDDIT_USER_AGENT"])

/-- Embedding of initialize_reddit_client (`reddit_service.py`
lines 46–91): if any of the three credentials is falsy, build the list
of missing names and raise `ValueError` with the joined message
(lines 64–75); otherwise construct the praw handle from exactly the
three credentials (lines 79–83) and return it.  The surrounding
`except (PRAWException, ClientException)` clause only re-raises, so it
is invisible to the result.  The tuning constants are module imports
never consulted by the body. -/
def init_reddit_client (tc : TuningConsts) (cid secret ua : Option String) :
    Except PyErr RedditClient :=
  if credPresent cid && credPresent secret && credPresent ua then
    .ok (praw_Reddit cid secret ua)
  else
    .error (.valueError ("Missing required Reddit credentials: " ++
      String.intercalate ", " (missing_creds cid secret ua)))

/-- The module-level mutable state of `reddit_service.py`: the single
global `reddit_client` binding (line 95 or 98). -/
structure ModuleState where
  reddit_client : Option RedditClient
deriving DecidableEq, Repr

/-- The module-load wrapper at `reddit_service.py` lines 94–98:
`try: reddit_client = initialize_reddit_client()` with a bare
`except Exception` that logs and assigns `reddit_client = None`.  The
result is the module state after import; the outer `Except` records
whether the import itself raises. -/
def reddit_service_module_load (tc : TuningConsts) (cid secret ua : Option String) :
    Except PyErr ModuleState :=
  match init_reddit_client tc cid secret ua with
  | .ok r => .ok { reddit_client := some r }
  | .error _ => .ok { reddit_client := none }

/-- `scrape_subreddits` (`reddit_service.py` lines 100–141): the body
is `pass`, so the call leaves the module state untouched and returns
Python `None`. -/
def scrape_subreddits (tc : TuningConsts) (st : ModuleState)
    (subreddits : Option (List String)) (lim : Option Int) :
    ModuleState × Except PyErr PyValue :=
  (st, .ok .vNone)

/-- `process_posts` (`reddit_service.py` lines 144–187): the body is
`pass`, so the call leaves the module state untouched and returns
Python `None`. -/
def process_posts (tc : TuningConsts) (st : ModuleState)
    (posts : Option (List RawPost)) :
    ModuleState × Except PyErr PyValue :=
  (st, .ok .vNone)

/-- `schedule_refresh` (`reddit_service.py` lines 190–223): the body is
`pass`, so the call leaves the module state untouched and returns
Python `None`. -/
def schedule_refresh (tc : TuningConsts) (st : ModuleState) :
    ModuleState × Except PyErr PyValue :=
  (st, .ok .vNone)

/-- One call into the public surface of `reddit_service.py`. -/
inductive ServiceCall where
  | callScrape (subreddits : Option (List String)) (lim : Option Int) : ServiceCall
  | callProcess (posts : Option (List RawPost)) : ServiceCall
  | callSchedule : ServiceCall
deriving DecidableEq, Repr

/-- The module state after one service call. -/
def runCall (tc : TuningConsts) (st : ModuleState) : ServiceCall → ModuleState
  | .callScrape subs lim => (scrape_subreddits tc st subs lim).1
  | .callProcess posts => (process_posts tc st posts).1
  | .callSchedule => (schedule_refresh tc st).1

/-- The module state after a sequence of service calls. -/
def runCalls (tc : TuningConsts) (st : ModuleState) : List ServiceCall → ModuleState
  | [] => st
  | c :: cs => runCalls tc (runCall tc st c) cs

/-- A concrete tuning-constant record carrying the values declared in
`config.py`, used to instantiate universally quantified statements. -/
def defaultConsts : TuningConsts :=
  { REDDIT_RATE_LIMIT := REDDIT_RATE_LIMIT
    MAX_POSTS_PER_SUBREDDIT := MAX_POSTS_PER_SUBREDDIT
    REFRESH_INTERVAL_HOURS := REFRESH_INTERVAL_HOURS
    BASE_SIMILARITY_THRESHOLD := BASE_SIMILARITY_THRESHOLD
    MIN_SIMILARITY_THRESHOLD := MIN_SIMILARITY_THRESHOLD
    MAX_SIMILARITY_THRESHOLD := MAX_SIMILARITY_THRESHOLD
    DEFAULT_MAX_RECOMMENDATIONS := DEFAULT_MAX_RECOMMENDATIONS
    MIN_RECOMMENDATIONS := MIN_RECOMMENDATIONS
    MAX_RECOMMENDATIONS := MAX_RECOMMENDATIONS }

/-! ## Helper lemmas -/

/-- A nonempty string is not `isEmpty`. -/
theorem isEmpty_eq_false_of_ne {s : String} (h : s ≠ "") : s.isEmpty = false := by
  cases hs : s.isEmpty
  · rfl
  · exact absurd ((String.isEmpty_iff s).mp hs) h

/-- No service call changes the module state, so any sequence of calls
leaves it unchanged. -/
theorem runCalls_id (tc : TuningConsts) (calls : List ServiceCall) :
    ∀ st, runCalls tc st calls = st := by
  induction calls with
  | nil => intro st; rfl
  | cons c cs ih => intro st; cases c <;> exact ih st

/-! ## Claims -/

/-- Claim C1: `initialize_reddit_client` raises `ValueError` if and only
if at least one of `REDDIT_CLIENT_ID`, `REDDIT_CLIENT_SECRET`,
`REDDIT_USER_AGENT` is unset or empty, and the error message names
exactly the missing variable(s) among those three (each missing one
listed, no present one listed). -/
theorem claim_C1_value_error_iff_missing (tc : TuningConsts) (cid secret ua : Option String) :
    ((∃ m, init_reddit_client tc cid secret ua = .error (.valueError m)) ↔
      (credPresent cid = false ∨ credPresent secret = false ∨ credPresent ua = false))
    ∧ (∀ m, init_reddit_client tc cid secret ua = .error (.valueError m) →
        m = "Missing required Reddit credentials: " ++
          String.intercalate ", " (missing_creds cid secret ua))
    ∧ (∀ v, v ∈ missing_creds cid secret ua ↔
        ((v = "REDDIT_CLIENT_ID" ∧ credPresent cid = false) ∨
         (v = "REDDIT_CLIENT_SECRET" ∧ credPresent secret = false) ∨
         (v = "REDDIT_USER_AGENT" ∧ credPresent ua = false))) := by
  cases hc : credPresent cid <;> cases hs : credPresent secret <;>
    cases hu : credPresent ua <;>
      simp [init_reddit_client, missing_creds, hc, hs, hu]

/-- Witness for C1 at a concrete credential state: ID unset and user
agent empty yields a `ValueError`. -/
theorem claim_C1_witness :
    ∃ m, init_reddit_client defaultConsts none (some "s") (some "") =
      .error (.valueError m) :=
  (claim_C1_value_error_iff_missing defaultConsts none (some "s") (some "")).1.mpr
    (by decide)

/-- Claim C2: importing the reddit_service module never raises, for
every credential state: the load-time call is wrapped in a handler
catching any exception, and on failure the module-level `reddit_client`
is left as `None` instead of propagating the error. -/
theorem claim_C2_import_never_raises (tc : TuningConsts) (cid secret ua : Option String) :
    (∃ st, reddit_service_module_load tc cid secret ua = .ok st)
    ∧ (∀ e, init_reddit_client tc cid secret ua = .error e →
        reddit_service_module_load tc cid secret ua = .ok { reddit_client := none })
    ∧ (∀ r, init_reddit_client tc cid secret ua = .ok r →
        reddit_service_module_load tc cid secret ua = .ok { reddit_client := some r }) := by
  unfold reddit_service_module_load
  cases h : init_reddit_client tc cid secret ua <;> simp

/-- Witness for C2: with all credentials unset the import succeeds and
leaves the client as `None`. -/
theorem claim_C2_witness :
    reddit_service_module_load defaultConsts none none none =
      .ok { reddit_client := none } :=
  (claim_C2_import_never_raises defaultConsts none none none).2.1
    (.valueError ("Missing required Reddit credentials: " ++
      "REDDIT_CLIENT_ID, REDDIT_CLIENT_SECRET, REDDIT_USER_AGENT"))
    (by decide)

/-- Claim C3: for every input (any subreddits list, any limit, any
posts list, including `None` and empty lists), each of
`scrape_subreddits`, `process_posts`, and `schedule_refresh` terminates
normally and returns `None`, raising no exception. -/
theorem claim_C3_stubs_return_none (tc : TuningConsts) (st : ModuleState)
    (subs : Option (List String)) (lim : Option Int) (posts : Option (List RawPost)) :
    (scrape_subreddits tc st subs lim).2 = .ok .vNone
    ∧ (process_posts tc st posts).2 = .ok .vNone
    ∧ (schedule_refresh tc st).2 = .ok .vNone :=
  ⟨rfl, rfl, rfl⟩

/-- Claim C4: when all three credentials are set and non-empty,
`initialize_reddit_client` returns a read-only Reddit client handle
constructed from exactly those three credentials, with no username or
password, without raising. -/
theorem claim_C4_all_present_builds_readonly_client (tc : TuningConsts)
    (s1 s2 s3 : String) (h1 : s1 ≠ "") (h2 : s2 ≠ "") (h3 : s3 ≠ "") :
    init_reddit_client tc (some s1) (some s2) (some s3) =
      .ok { client_id := some s1, client_secret := some s2, user_agent := some s3,
            username := none, password := none, read_only := true } := by
  simp [init_reddit_client, credPresent, praw_Reddit,
    isEmpty_eq_false_of_ne h1, isEmpty_eq_false_of_ne h2, isEmpty_eq_false_of_ne h3]

/-- Witness for C4 at three concrete non-empty credentials. -/
theorem claim_C4_witness :
    init_reddit_client defaultConsts (some "cid") (some "sec") (some "agent") =
      .ok { client_id := some "cid", client_secret := some "sec",
            user_agent := some "agent",
            username := none, password := none, read_only := true } :=
  claim_C4_all_present_builds_readonly_client defaultConsts "cid" "sec" "agent"
    (by decide) (by decide) (by decide)

/-- Claim C5: the configuration module reads exactly the eight
environment variables `REDDIT_CLIENT_ID`, `REDDIT_CLIENT_SECRET`,
`REDDIT_USER_AGENT`, `PINECONE_API_KEY`, `PINECONE_ENVIRONMENT`,
`OPENAI_API_KEY`, `FLASK_DEBUG`, `PORT` (its result depends on no other
variable, and it is sensitive to each of the eight), and its
`SUBREDDITS` value is exactly the five-element list. -/
theorem claim_C5_config_reads_exactly_eight :
    (∀ e1 e2 : Env, (∀ v ∈ configEnvVars, e1 v = e2 v) → loadConfig e1 = loadConfig e2)
    ∧ (∀ e c, loadConfig e = .ok c → c.SUBREDDITS =
        ["SideProject", "learnprogramming", "vibecoding", "ChatGPTCoding", "webdev"])
    ∧ (∀ v ∈ configEnvVars, loadConfig (envSet v "x1") ≠ loadConfig envEmpty) := by
  refine ⟨?_, ?_, ?_⟩
  · intro e1 e2 h
    have g1 := h "REDDIT_CLIENT_ID" (by simp [configEnvVars])
    have g2 := h "REDDIT_CLIENT_SECRET" (by simp [configEnvVars])
    have g3 := h "REDDIT_USER_AGENT" (by simp [configEnvVars])
    have g4 := h "PINECONE_API_KEY" (by simp [configEnvVars])
    have g5 := h "PINECONE_ENVIRONMENT" (by simp [configEnvVars])
    have g6 := h "OPENAI_API_KEY" (by simp [configEnvVars])
    have g7 := h "FLASK_DEBUG" (by simp [configEnvVars])
    have g8 := h "PORT" (by simp [configEnvVars])
    simp only [loadConfig, g1, g2, g3, g4, g5, g6, g7, g8]
  · intro e c h
    unfold loadConfig at h
    cases hp : PORT_of (e "PORT") with
    | error pe => rw [hp] at h; exact absurd h (by simp)
    | ok n => rw [hp] at h; cases h; rfl
  · intro v hv
    have key : ∀ w ∈ configEnvVars,
        credsView (loadConfig (envSet w "x1")) ≠ credsView (loadConfig envEmpty) := by
      decide
    exact fun h => key v hv (congrArg credsView h)

/-- Witness for C5: an unrelated variable does not change the loaded
configuration, while a bad `PORT` does. -/
theorem claim_C5_witness :
    loadConfig (envSet "HOME" "x") = loadConfig envEmpty
    ∧ loadConfig (envSet "PORT" "x1") ≠ loadConfig envEmpty :=
  ⟨claim_C5_config_reads_exactly_eight.1 (envSet "HOME" "x") envEmpty (by decide),
   claim_C5_config_reads_exactly_eight.2.2 "PORT" (by decide)⟩

/-- Claim C6: the module-level `reddit_client` is assigned exactly once,
at import time; no service call reassigns it, so the module state after
any sequence of calls equals the state just after import. -/
theorem claim_C6_client_assigned_once (tc : TuningConsts) (cid secret ua : Option String)
    (st0 : ModuleState)
    (h : reddit_service_module_load tc cid secret ua = .ok st0)
    (calls : List ServiceCall) :
    runCalls tc st0 calls = st0 :=
  runCalls_id tc calls st0

/-- Witness for C6: after importing with no credentials, a concrete call
sequence leaves the module state unchanged. -/
theorem claim_C6_witness :
    runCalls defaultConsts { reddit_client := none }
      [ServiceCall.callSchedule, ServiceCall.callProcess none,
       ServiceCall.callScrape none none] = { reddit_client := none } :=
  claim_C6_client_assigned_once defaultConsts none none none { reddit_client := none }
    (by decide)
    [ServiceCall.callSchedule, ServiceCall.callProcess none,
     ServiceCall.callScrape none none]

/-- Claim C7: the numeric tuning constants do not influence any executed
behavior: two runs differing only in those constants give identical
results for every function of reddit_service on every input. -/
theorem claim_C7_tuning_consts_no_influence (tc1 tc2 : TuningConsts)
    (cid secret ua : Option String) (st : ModuleState)
    (subs : Option (List String)) (lim : Option Int) (posts : Option (List RawPost)) :
    init_reddit_client tc1 cid secret ua = init_reddit_client tc2 cid secret ua
    ∧ reddit_service_module_load tc1 cid secret ua =
        reddit_service_module_load tc2 cid secret ua
    ∧ scrape_subreddits tc1 st subs lim = scrape_subreddits tc2 st subs lim
    ∧ process_posts tc1 st posts = process_posts tc2 st posts
    ∧ schedule_refresh tc1 st = schedule_refresh tc2 st :=
  ⟨rfl, rfl, rfl, rfl, rfl⟩

/-- Claim C8: importing the configuration module raises `ValueError`
when `PORT` is set to a string that is not a valid integer literal,
because the `int()` conversion is unguarded; when `PORT` is unset the
module-level `PORT` equals 5000. -/
theorem claim_C8_port_unguarded_int (e : Env) :
    (e "PORT" = none → ∃ c, loadConfig e = .ok c ∧ c.PORT = 5000)
    ∧ (∀ s, e "PORT" = some s → pyIntOfString s = none →
        loadConfig e =
          .error (.valueError ("invalid literal for int() with base 10: " ++ s))) := by
  constructor
  · intro h
    simp only [loadConfig, h, PORT_of]
    exact ⟨_, rfl, rfl⟩
  · intro s hs hp
    simp [loadConfig, hs, PORT_of, hp]

/-- Witness for C8: `PORT` unset gives 5000; `PORT=abc` raises. -/
theorem claim_C8_witness :
    (∃ c, loadConfig envEmpty = .ok c ∧ c.PORT = 5000)
    ∧ loadConfig (envSet "PORT" "abc") =
        .error (.valueError ("invalid literal for int() with base 10: " ++ "abc")) :=
  ⟨(claim_C8_port_unguarded_int envEmpty).1 (by decide),
   (claim_C8_port_unguarded_int (envSet "PORT" "abc")).2 "abc" (by decide) (by decide)⟩

/-- Claim C9: the module-level `DEBUG` is the boolean `True` when
`FLASK_DEBUG` is unset, and otherwise the raw string value; it is truthy
for every non-empty setting and is never the boolean `False`. -/
theorem claim_C9_debug_value (e : Env) :
    (e "FLASK_DEBUG" = none → DEBUG_of (e "FLASK_DEBUG") = .vBool true)
    ∧ (∀ s, e "FLASK_DEBUG" = some s → DEBUG_of (e "FLASK_DEBUG") = .vStr s)
    ∧ (∀ s, e "FLASK_DEBUG" = some s → s ≠ "" →
        (DEBUG_of (e "FLASK_DEBUG")).truthy = true)
    ∧ DEBUG_of (e "FLASK_DEBUG") ≠ .vBool false
    ∧ (∀ c, loadConfig e = .ok c → c.DEBUG = DEBUG_of (e "FLASK_DEBUG")) := by
  refine ⟨?_, ?_, ?_, ?_, ?_⟩
  · intro h; simp [DEBUG_of, h]
  · intro s h; simp [DEBUG_of, h]
  · intro s h hne
    simp [DEBUG_of, h, PyValue.truthy, isEmpty_eq_false_of_ne hne]
  · cases h : e "FLASK_DEBUG" <;> simp [DEBUG_of, h]
  · intro c h
    unfold loadConfig at h
    cases hp : PORT_of (e "PORT") with
    | error pe => rw [hp] at h; exact absurd h (by simp)
    | ok n => rw [hp] at h; cases h; rfl

/-- Witness for C9: `FLASK_DEBUG=false` still yields a truthy `DEBUG`. -/
theorem claim_C9_witness :
    (DEBUG_of ((envSet "FLASK_DEBUG" "false") "FLASK_DEBUG")).truthy = true :=
  (claim_C9_debug_value (envSet "FLASK_DEBUG" "false")).2.2.1 "false"
    (by decide) (by decide)

/-- Claim C10: the configured numeric bounds are consistently ordered:
`MIN_SIMILARITY_THRESHOLD < BASE_SIMILARITY_THRESHOLD <
MAX_SIMILARITY_THRESHOLD` (0.65 < 0.75 < 0.85) and
`MIN_RECOMMENDATIONS ≤ DEFAULT_MAX_RECOMMENDATIONS ≤
MAX_RECOMMENDATIONS` (5 ≤ 10 ≤ 20). -/
theorem claim_C10_bounds_ordered :
    MIN_SIMILARITY_THRESHOLD < BASE_SIMILARITY_THRESHOLD
    ∧ BASE_SIMILARITY_THRESHOLD < MAX_SIMILARITY_THRESHOLD
    ∧ MIN_SIMILARITY_THRESHOLD = (0.65 : ℚ)
    ∧ BASE_SIMILARITY_THRESHOLD = (0.75 : ℚ)
    ∧ MAX_SIMILARITY_THRESHOLD = (0.85 : ℚ)
    ∧ MIN_RECOMMENDATIONS ≤ DEFAULT_MAX_RECOMMENDATIONS
    ∧ DEFAULT_MAX_RECOMMENDATIONS ≤ MAX_RECOMMENDATIONS
    ∧ MIN_RECOMMENDATIONS = 5
    ∧ DEFAULT_MAX_RECOMMENDATIONS = 10
    ∧ MAX_RECOMMENDATIONS = 20 := by
  refine ⟨?_, ?_, rfl, rfl, rfl, ?_, ?_, rfl, rfl, rfl⟩ <;>
    norm_num [MIN_SIMILARITY_THRESHOLD, BASE_SIMILARITY_THRESHOLD,
      MAX_SIMILARITY_THRESHOLD, MIN_RECOMMENDATIONS,
      DEFAULT_MAX_RECOMMENDATIONS, MAX_RECOMMENDATIONS]

end VibeFinder
